import Mathlib

/-!
Shallow embedding of the Escrow-Workflow-System core:
the state machine (src/domain/escrow-state.ts), the event-sourcing model
(src/domain/events.ts), the escrow aggregate (src/domain/escrow.ts) and the
JSON-backed store (src/storage/escrow-store.ts).

Modelling conventions:
* `Date` values are `Nat` (milliseconds since epoch).  Every `new Date()`
  call site in the source is a separate read of the ambient clock, so each
  such site becomes an explicit parameter of the embedded function.
* Non-deterministic id generation (`createEventId`, `Date.now`-based ids)
  likewise becomes an explicit parameter.
* TypeScript non-null assertions (`x!`) are modelled with `Option.get!`;
  unchecked `as` casts on events are modelled by total accessors whose
  value on the wrong variant mirrors the `undefined` the cast would yield.
-/

/-- EscrowState enum of src/domain/escrow-state.ts. -/
inductive EscrowState where
  | PROPOSED
  | FUNDED
  | RELEASED
  | DISPUTED
  | REFUNDED
deriving DecidableEq, Inhabited

/-- The TS enum's string value, as used in error messages. -/
def EscrowState.name : EscrowState → String
  | .PROPOSED => "PROPOSED"
  | .FUNDED => "FUNDED"
  | .RELEASED => "RELEASED"
  | .DISPUTED => "DISPUTED"
  | .REFUNDED => "REFUNDED"

/-- EscrowAction enum of src/domain/escrow-state.ts. -/
inductive EscrowAction where
  | FUND
  | RELEASE
  | DISPUTE
  | RESOLVE_DISPUTE_RELEASE
  | RESOLVE_DISPUTE_REFUND
  | REFUND
deriving DecidableEq, Inhabited

/-- The TS enum's string value, as used in error messages. -/
def EscrowAction.name : EscrowAction → String
  | .FUND => "FUND"
  | .RELEASE => "RELEASE"
  | .DISPUTE => "DISPUTE"
  | .RESOLVE_DISPUTE_RELEASE => "RESOLVE_DISPUTE_RELEASE"
  | .RESOLVE_DISPUTE_REFUND => "RESOLVE_DISPUTE_REFUND"
  | .REFUND => "REFUND"

/-- UserRole enum of src/domain/escrow-state.ts. -/
inductive UserRole where
  | BUYER
  | SELLER
  | ADMIN
deriving DecidableEq, Inhabited

/-- The TS enum's string value, as used in error messages. -/
def UserRole.name : UserRole → String
  | .BUYER => "BUYER"
  | .SELLER => "SELLER"
  | .ADMIN => "ADMIN"

/-- TransitionResult interface of src/domain/escrow-state.ts. -/
structure TransitionResult where
  success : Bool
  newState : Option EscrowState := none
  error : Option String := none
deriving DecidableEq

/-- isTerminalState of src/domain/escrow-state.ts. -/
def isTerminalState (state : EscrowState) : Bool :=
  state = EscrowState.RELEASED || state = EscrowState.REFUNDED

/-- The permissionMap local of transitionState (src/domain/escrow-state.ts,
lines 62-69). -/
def permissionMap : EscrowAction → List UserRole
  | .FUND => [.BUYER]
  | .RELEASE => [.SELLER]
  | .DISPUTE => [.BUYER]
  | .RESOLVE_DISPUTE_RELEASE => [.ADMIN]
  | .RESOLVE_DISPUTE_REFUND => [.ADMIN]
  | .REFUND => []

/-- transitionState of src/domain/escrow-state.ts (lines 48-112): terminal
check, then role-permission check, then the switch over the current state,
falling through to the invalid-transition error. -/
def transitionState (current : EscrowState) (action : EscrowAction)
    (role : UserRole) : TransitionResult :=
  if isTerminalState current then
    { success := false,
      error := some ("No actions allowed from terminal state " ++ current.name) }
  else
    let allowedRoles := permissionMap action
    if !(allowedRoles.contains role) then
      { success := false,
        error := some ("Role " ++ role.name ++ " is not allowed to perform action "
          ++ action.name) }
    else
      let invalid : TransitionResult :=
        { success := false,
          error := some ("Invalid transition: " ++ current.name ++ " -> ("
            ++ action.name ++ ") by " ++ role.name) }
      match current with
      | .PROPOSED =>
          if action = .FUND ∧ role = .BUYER then
            { success := true, newState := some .FUNDED }
          else invalid
      | .FUNDED =>
          if action = .RELEASE ∧ role = .SELLER then
            { success := true, newState := some .RELEASED }
          else if action = .DISPUTE ∧ role = .BUYER then
            { success := true, newState := some .DISPUTED }
          else invalid
      | .DISPUTED =>
          if action = .RESOLVE_DISPUTE_RELEASE ∧ role = .ADMIN then
            { success := true, newState := some .RELEASED }
          else if action = .RESOLVE_DISPUTE_REFUND ∧ role = .ADMIN then
            { success := true, newState := some .REFUNDED }
          else invalid
      | .RELEASED =>
          { success := false,
            error := some ("No actions allowed from terminal state " ++ current.name) }
      | .REFUNDED =>
          { success := false,
            error := some ("No actions allowed from terminal state " ++ current.name) }

/-- EventType enum of src/domain/events.ts. -/
inductive EventType where
  | ESCROW_CREATED
  | STATE_CHANGED
deriving DecidableEq, Inhabited

/-- The EscrowEvent tagged union of src/domain/events.ts:
EscrowCreatedEvent | StateChangedEvent. -/
inductive EscrowEvent where
  | created (id : String) (timestamp : Nat) (escrowId : String)
      (buyerId : String) (sellerId : String) (amount : Int) (description : String)
  | stateChanged (id : String) (timestamp : Nat) (escrowId : String)
      (action : EscrowAction) (fromState : EscrowState) (toState : EscrowState)
      (performedBy : String) (userRole : UserRole) (reason : Option String)
deriving DecidableEq, Inhabited

/-- The discriminant field `type` of the union. -/
def EscrowEvent.type : EscrowEvent → EventType
  | .created .. => .ESCROW_CREATED
  | .stateChanged .. => .STATE_CHANGED

/-- Field `timestamp`, present on both variants. -/
def EscrowEvent.timestamp : EscrowEvent → Nat
  | .created _ t .. => t
  | .stateChanged _ t .. => t

/-- Field `escrowId`, present on both variants. -/
def EscrowEvent.escrowId : EscrowEvent → String
  | .created _ _ e .. => e
  | .stateChanged _ _ e .. => e

/-- Field `buyerId` of EscrowCreatedEvent; on the other variant the source
reads it through an unchecked cast, yielding `undefined` (default here). -/
def EscrowEvent.buyerId : EscrowEvent → String
  | .created _ _ _ b .. => b
  | .stateChanged .. => ""

/-- Field `sellerId` of EscrowCreatedEvent (default on the other variant,
see `EscrowEvent.buyerId`). -/
def EscrowEvent.sellerId : EscrowEvent → String
  | .created _ _ _ _ s .. => s
  | .stateChanged .. => ""

/-- Field `amount` of EscrowCreatedEvent (default on the other variant). -/
def EscrowEvent.amount : EscrowEvent → Int
  | .created _ _ _ _ _ a _ => a
  | .stateChanged .. => 0

/-- Field `description` of EscrowCreatedEvent (default on the other
variant). -/
def EscrowEvent.description : EscrowEvent → String
  | .created _ _ _ _ _ _ d => d
  | .stateChanged .. => ""

/-- Field `toState` of StateChangedEvent (default on the other variant). -/
def EscrowEvent.toState : EscrowEvent → EscrowState
  | .created .. => .PROPOSED
  | .stateChanged _ _ _ _ _ t .. => t

/-- createEscrowCreatedEvent of src/domain/events.ts.  The source calls
`createEventId()` and `new Date()`; those two reads are the explicit
parameters `eventId` and `eventTime`. -/
def createEscrowCreatedEvent (escrowId buyerId sellerId : String) (amount : Int)
    (description : String) (eventId : String) (eventTime : Nat) : EscrowEvent :=
  .created eventId eventTime escrowId buyerId sellerId amount description

/-- createStateChangedEvent of src/domain/events.ts, with the
`createEventId()` and `new Date()` reads as explicit parameters. -/
def createStateChangedEvent (escrowId : String) (action : EscrowAction)
    (fromState toState : EscrowState) (performedBy : String) (userRole : UserRole)
    (reason : Option String) (eventId : String) (eventTime : Nat) : EscrowEvent :=
  .stateChanged eventId eventTime escrowId action fromState toState
    performedBy userRole reason

/-- The anonymous `{id, buyerId, sellerId, amount, description}` record
returned by reconstructStateFromEvents. -/
structure EscrowCore where
  id : String
  buyerId : String
  sellerId : String
  amount : Int
  description : String
deriving DecidableEq

/-- The `{state, escrow}` record returned by reconstructStateFromEvents. -/
structure ReconstructedCore where
  state : Option EscrowState
  escrow : Option EscrowCore
deriving DecidableEq

/-- reconstructStateFromEvents of src/domain/events.ts (lines 168-213):
empty list gives nulls; otherwise the first ESCROW_CREATED event found
anywhere seeds the core record (via the source's unchecked cast), and the
state is the fold of every STATE_CHANGED event's toState over PROPOSED. -/
def reconstructStateFromEvents (events : List EscrowEvent) : ReconstructedCore :=
  if events.length = 0 then ⟨none, none⟩
  else
    match events.find? (fun e => e.type == EventType.ESCROW_CREATED) with
    | none => ⟨none, none⟩
    | some createdEvent =>
        let escrow : EscrowCore :=
          { id := createdEvent.escrowId, buyerId := createdEvent.buyerId,
            sellerId := createdEvent.sellerId, amount := createdEvent.amount,
            description := createdEvent.description }
        let stateChangeEvents :=
          events.filter (fun e => e.type == EventType.STATE_CHANGED)
        let currentState :=
          stateChangeEvents.foldl (fun _ ev => ev.toState) EscrowState.PROPOSED
        ⟨some currentState, some escrow⟩

/-- The Escrow aggregate interface of src/domain/escrow.ts. -/
structure Escrow where
  id : String
  buyerId : String
  sellerId : String
  amount : Int
  description : String
  currentState : EscrowState
  createdAt : Nat
  updatedAt : Nat
deriving DecidableEq, Inhabited

/-- EscrowWithHistory of src/domain/escrow.ts: the aggregate plus its
event list. -/
structure EscrowWithHistory where
  id : String
  buyerId : String
  sellerId : String
  amount : Int
  description : String
  currentState : EscrowState
  createdAt : Nat
  updatedAt : Nat
  events : List EscrowEvent
deriving DecidableEq

/-- createEscrow of src/domain/escrow.ts (lines 151-179).  `now` is the
`new Date()` read taken for the snapshot; `eventId` and `eventTime` are the
separate reads taken inside createEscrowCreatedEvent. -/
def createEscrow (id buyerId sellerId : String) (amount : Int)
    (description : String) (now : Nat) (eventId : String) (eventTime : Nat) :
    Escrow × EscrowEvent :=
  let escrow : Escrow :=
    { id := id, buyerId := buyerId, sellerId := sellerId, amount := amount,
      description := description, currentState := EscrowState.PROPOSED,
      createdAt := now, updatedAt := now }
  let event := createEscrowCreatedEvent id buyerId sellerId amount description
    eventId eventTime
  (escrow, event)

/-- The anonymous result record of applyAction in src/domain/escrow.ts. -/
structure ApplyResult where
  success : Bool
  newEscrow : Option Escrow := none
  event : Option EscrowEvent := none
  error : Option String := none
deriving DecidableEq

/-- applyAction of src/domain/escrow.ts (lines 184-221).  `now` is the
snapshot's `new Date()` read; `eventId` and `eventTime` are the reads made
inside createStateChangedEvent.  The source's `transition.newState!` is
`Option.get!`. -/
def applyAction (escrow : Escrow) (action : EscrowAction) (performedBy : String)
    (userRole : UserRole) (reason : Option String) (now : Nat) (eventId : String)
    (eventTime : Nat) : ApplyResult :=
  let transition := transitionState escrow.currentState action userRole
  if !transition.success then
    { success := false, error := transition.error }
  else
    let newEscrow : Escrow :=
      { escrow with currentState := transition.newState.get!, updatedAt := now }
    let event := createStateChangedEvent escrow.id action escrow.currentState
      transition.newState.get! performedBy userRole reason eventId eventTime
    { success := true, newEscrow := some newEscrow, event := some event }

/-- Models `events[events.length - 1].timestamp` in reconstructEscrow; the
empty case is unreachable there (reconstruction has already required a
nonempty list). -/
def lastTimestamp (events : List EscrowEvent) : Nat :=
  match events.getLast? with
  | some ev => ev.timestamp
  | none => 0

/-- reconstructEscrow of src/domain/escrow.ts (lines 226-244): null when
reconstructStateFromEvents yields nulls, else the core fields plus the
found Created event's timestamp as createdAt and the last event's
timestamp as updatedAt.  The source's `as EscrowEvent` cast on `find` is
`Option.get!`. -/
def reconstructEscrow (events : List EscrowEvent) : Option EscrowWithHistory :=
  let r := reconstructStateFromEvents events
  match r.state, r.escrow with
  | some state, some escrow =>
      let createdEvent :=
        (events.find? (fun e => e.type == EventType.ESCROW_CREATED)).get!
      some { id := escrow.id, buyerId := escrow.buyerId,
             sellerId := escrow.sellerId, amount := escrow.amount,
             description := escrow.description, currentState := state,
             createdAt := createdEvent.timestamp,
             updatedAt := lastTimestamp events, events := events }
  | _, _ => none

/-- The EscrowData record of src/storage/escrow-store.ts: what the store
keeps per id. -/
structure EscrowData where
  escrow : Escrow
  events : List EscrowEvent
deriving DecidableEq

/-- The store's in-memory cache, a `Record<string, EscrowData>` modelled as
a finite map by key. -/
def EscrowCache : Type := String → Option EscrowData

/-- The reconciliation merge performed by EscrowStore.ensureLoaded
(src/storage/escrow-store.ts, lines 95-109): over the union of both
sources' keys, an id in both keeps `va` when
`va.escrow.updatedAt >= vb.escrow.updatedAt`, else `vb`; an id in one
source keeps that entry. -/
def ensureLoadedMerge (a b : EscrowCache) : EscrowCache :=
  fun key =>
    match a key, b key with
    | some va, some vb =>
        some (if va.escrow.updatedAt ≥ vb.escrow.updatedAt then va else vb)
    | some va, none => some va
    | none, some vb => some vb
    | none, none => none

/-- EscrowStore.create (src/storage/escrow-store.ts, lines 142-148):
unconditionally sets `cache[escrow.id] = { escrow, events: [initialEvent] }`.
File persistence is outside the logical state. -/
def EscrowStore.create (cache : EscrowCache) (escrow : Escrow)
    (initialEvent : EscrowEvent) : EscrowCache :=
  fun k => if k = escrow.id then some ⟨escrow, [initialEvent]⟩ else cache k

/-- EscrowStore.getById (src/storage/escrow-store.ts, lines 153-162):
null when absent, else the snapshot's fields with a copy of the events. -/
def EscrowStore.getById (cache : EscrowCache) (id : String) :
    Option EscrowWithHistory :=
  match cache id with
  | none => none
  | some data =>
      some { id := data.escrow.id, buyerId := data.escrow.buyerId,
             sellerId := data.escrow.sellerId, amount := data.escrow.amount,
             description := data.escrow.description,
             currentState := data.escrow.currentState,
             createdAt := data.escrow.createdAt,
             updatedAt := data.escrow.updatedAt, events := data.events }

/-- EscrowStore.update (src/storage/escrow-store.ts, lines 167-180): throws
(second component `some message`) when the id is absent — before any
mutation — else replaces the snapshot and appends the event.  The returned
cache is the store state after the call. -/
def EscrowStore.update (cache : EscrowCache) (escrow : Escrow)
    (event : EscrowEvent) : EscrowCache × Option String :=
  match cache escrow.id with
  | none => (cache, some ("Escrow " ++ escrow.id ++ " not found"))
  | some data =>
      ((fun k => if k = escrow.id then some ⟨escrow, data.events ++ [event]⟩
          else cache k), none)

/-- The store-relevant flow of POST /api/escrow/[id]/actions
(src/app/api/escrow/[id]/actions/route.ts): load the escrow (404 when
absent), rebuild the snapshot from its fields, call applyAction, and only
on success call EscrowStore.update; on failure the handler returns the
error and never touches the store.  Second component: the error returned,
none on success. -/
def actionsPost (cache : EscrowCache) (id : String) (action : EscrowAction)
    (performedBy : String) (userRole : UserRole) (reason : Option String)
    (now : Nat) (eventId : String) (eventTime : Nat) :
    EscrowCache × Option String :=
  match EscrowStore.getById cache id with
  | none => (cache, some "Escrow not found")
  | some escrowData =>
      let result := applyAction
        { id := escrowData.id, buyerId := escrowData.buyerId,
          sellerId := escrowData.sellerId, amount := escrowData.amount,
          description := escrowData.description,
          currentState := escrowData.currentState,
          createdAt := escrowData.createdAt,
          updatedAt := escrowData.updatedAt }
        action performedBy userRole reason now eventId eventTime
      if !result.success then (cache, result.error)
      else EscrowStore.update cache result.newEscrow.get! result.event.get!

/-- One applyAction call in a run of the aggregate, with its
non-deterministic inputs.  `time` is the clock value of the call: using it
for both the snapshot's `new Date()` and the event's `new Date()` states
that the two reads of this one call returned the same instant. -/
structure ActionCall where
  action : EscrowAction
  performedBy : String
  userRole : UserRole
  reason : Option String
  eventId : String
  time : Nat
deriving DecidableEq

/-- Folds a list of applyAction calls over an escrow, collecting the emitted
events; `none` as soon as one call is rejected, else the final snapshot and
the StateChanged events in acceptance order. -/
def runActions (e : Escrow) : List ActionCall → Option (Escrow × List EscrowEvent)
  | [] => some (e, [])
  | c :: rest =>
      let r := applyAction e c.action c.performedBy c.userRole c.reason
        c.time c.eventId c.time
      match r.newEscrow, r.event with
      | some ne, some ev =>
          match runActions ne rest with
          | some (fin, evs) => some (fin, ev :: evs)
          | none => none
      | _, _ => none

/-- A successful transition always carries a next state. -/
lemma transitionState_success_newState (s : EscrowState) (a : EscrowAction)
    (r : UserRole) (h : (transitionState s a r).success = true) :
    (transitionState s a r).newState.isSome = true := by
  revert h
  cases s <;> cases a <;> cases r <;> decide

/-- C4: transitionState succeeds exactly on the five transition-table rows
with their prescribed roles, yielding the table's To state, and the REFUND
action never succeeds for any state and role. -/
theorem transitionState_table_exact :
    (∀ s a r, (transitionState s a r).success = true ↔
      ((s = EscrowState.PROPOSED ∧ a = EscrowAction.FUND ∧ r = UserRole.BUYER) ∨
       (s = EscrowState.FUNDED ∧ a = EscrowAction.RELEASE ∧ r = UserRole.SELLER) ∨
       (s = EscrowState.FUNDED ∧ a = EscrowAction.DISPUTE ∧ r = UserRole.BUYER) ∨
       (s = EscrowState.DISPUTED ∧ a = EscrowAction.RESOLVE_DISPUTE_RELEASE ∧
         r = UserRole.ADMIN) ∨
       (s = EscrowState.DISPUTED ∧ a = EscrowAction.RESOLVE_DISPUTE_REFUND ∧
         r = UserRole.ADMIN))) ∧
    (transitionState EscrowState.PROPOSED EscrowAction.FUND
      UserRole.BUYER).newState = some EscrowState.FUNDED ∧
    (transitionState EscrowState.FUNDED EscrowAction.RELEASE
      UserRole.SELLER).newState = some EscrowState.RELEASED ∧
    (transitionState EscrowState.FUNDED EscrowAction.DISPUTE
      UserRole.BUYER).newState = some EscrowState.DISPUTED ∧
    (transitionState EscrowState.DISPUTED EscrowAction.RESOLVE_DISPUTE_RELEASE
      UserRole.ADMIN).newState = some EscrowState.RELEASED ∧
    (transitionState EscrowState.DISPUTED EscrowAction.RESOLVE_DISPUTE_REFUND
      UserRole.ADMIN).newState = some EscrowState.REFUNDED ∧
    (∀ s r, (transitionState s EscrowAction.REFUND r).success = false) := by
  refine ⟨fun s a r => ?_, by decide, by decide, by decide, by decide, by decide,
    fun s r => ?_⟩
  · cases s <;> cases a <;> cases r <;> decide
  · cases s <;> cases r <;> decide

/-- C5: from a terminal state (RELEASED or REFUNDED), transitionState — and
hence applyAction — rejects every action for every role with the
terminal-state reason, the role and table checks never being reached. -/
theorem terminal_state_gate (e : Escrow) (a : EscrowAction) (p : String)
    (r : UserRole) (reason : Option String) (now : Nat) (eid : String)
    (et : Nat) (h : isTerminalState e.currentState = true) :
    transitionState e.currentState a r =
      { success := false, newState := none,
        error := some ("No actions allowed from terminal state "
          ++ e.currentState.name) } ∧
    applyAction e a p r reason now eid et =
      { success := false, newEscrow := none, event := none,
        error := some ("No actions allowed from terminal state "
          ++ e.currentState.name) } := by
  have ht : transitionState e.currentState a r =
      { success := false, newState := none,
        error := some ("No actions allowed from terminal state "
          ++ e.currentState.name) } := by
    simp [transitionState, h]
  exact ⟨ht, by simp [applyAction, ht]⟩

/-- Witness for the terminal-state gate at a RELEASED escrow and a FUND
attempt by the buyer. -/
theorem terminal_state_gate_witness :
    transitionState EscrowState.RELEASED EscrowAction.FUND UserRole.BUYER =
      { success := false, newState := none,
        error := some ("No actions allowed from terminal state "
          ++ EscrowState.RELEASED.name) } ∧
    applyAction ⟨"e1", "b", "s", 5, "d", EscrowState.RELEASED, 0, 0⟩
      EscrowAction.FUND "b" UserRole.BUYER none 1 "ev" 1 =
      { success := false, newEscrow := none, event := none,
        error := some ("No actions allowed from terminal state "
          ++ EscrowState.RELEASED.name) } :=
  terminal_state_gate ⟨"e1", "b", "s", 5, "d", EscrowState.RELEASED, 0, 0⟩
    EscrowAction.FUND "b" UserRole.BUYER none 1 "ev" 1 rfl

/-- C8: whenever transitionState rejects, applyAction returns a failure
carrying exactly the state machine's error and no snapshot and no event;
and the actions route handler, fed a store holding that escrow, returns the
same error with the store unchanged. -/
theorem applyAction_rejects_atomically (cache : EscrowCache) (id : String)
    (a : EscrowAction) (p : String) (r : UserRole) (reason : Option String)
    (now : Nat) (eid : String) (et : Nat) (data : EscrowData)
    (hid : cache id = some data)
    (h : (transitionState data.escrow.currentState a r).success = false) :
    applyAction data.escrow a p r reason now eid et =
      { success := false, newEscrow := none, event := none,
        error := (transitionState data.escrow.currentState a r).error } ∧
    actionsPost cache id a p r reason now eid et =
      (cache, (transitionState data.escrow.currentState a r).error) := by
  have ha : applyAction data.escrow a p r reason now eid et =
      { success := false, newEscrow := none, event := none,
        error := (transitionState data.escrow.currentState a r).error } := by
    simp [applyAction, h]
  refine ⟨ha, ?_⟩
  simp only [actionsPost, EscrowStore.getById, hid]
  simp [ha]

/-- Witness for atomic rejection: RELEASE from PROPOSED by the seller (an
invalid transition) against a one-entry store. -/
theorem applyAction_rejects_atomically_witness :
    applyAction ⟨"e1", "b", "s", 5, "d", EscrowState.PROPOSED, 0, 0⟩
      EscrowAction.RELEASE "s" UserRole.SELLER none 7 "ev" 7 =
      { success := false, newEscrow := none, event := none,
        error := (transitionState EscrowState.PROPOSED EscrowAction.RELEASE
          UserRole.SELLER).error } ∧
    actionsPost
      (fun k => if k = "e1" then
        some ⟨⟨"e1", "b", "s", 5, "d", EscrowState.PROPOSED, 0, 0⟩,
          [EscrowEvent.created "ev0" 0 "e1" "b" "s" 5 "d"]⟩ else none)
      "e1" EscrowAction.RELEASE "s" UserRole.SELLER none 7 "ev" 7 =
      ((fun k => if k = "e1" then
        some ⟨⟨"e1", "b", "s", 5, "d", EscrowState.PROPOSED, 0, 0⟩,
          [EscrowEvent.created "ev0" 0 "e1" "b" "s" 5 "d"]⟩ else none),
       (transitionState EscrowState.PROPOSED EscrowAction.RELEASE
         UserRole.SELLER).error) :=
  applyAction_rejects_atomically
    (fun k => if k = "e1" then
      some ⟨⟨"e1", "b", "s", 5, "d", EscrowState.PROPOSED, 0, 0⟩,
        [EscrowEvent.created "ev0" 0 "e1" "b" "s" 5 "d"]⟩ else none)
    "e1" EscrowAction.RELEASE "s" UserRole.SELLER none 7 "ev" 7
    ⟨⟨"e1", "b", "s", 5, "d", EscrowState.PROPOSED, 0, 0⟩,
      [EscrowEvent.created "ev0" 0 "e1" "b" "s" 5 "d"]⟩ rfl rfl

/-- C9: an accepted applyAction builds a snapshot that keeps id, buyerId,
sellerId, amount, description and createdAt of the input and changes only
currentState (to the machine's next state) and updatedAt (to the snapshot's
clock read); the emitted event records the full transition. -/
theorem applyAction_frame (e : Escrow) (a : EscrowAction) (p : String)
    (r : UserRole) (reason : Option String) (now : Nat) (eid : String)
    (et : Nat) (h : (transitionState e.currentState a r).success = true) :
    ∃ ns, (transitionState e.currentState a r).newState = some ns ∧
      applyAction e a p r reason now eid et =
        { success := true,
          newEscrow := some ⟨e.id, e.buyerId, e.sellerId, e.amount,
            e.description, ns, e.createdAt, now⟩,
          event := some (.stateChanged eid et e.id a e.currentState ns p r reason),
          error := none } := by
  obtain ⟨ns, hns⟩ := Option.isSome_iff_exists.mp
    (transitionState_success_newState e.currentState a r h)
  refine ⟨ns, hns, ?_⟩
  simp [applyAction, h, hns, createStateChangedEvent]

/-- Witness for the frame condition: FUND from PROPOSED by the buyer. -/
theorem applyAction_frame_witness :
    ∃ ns, (transitionState EscrowState.PROPOSED EscrowAction.FUND
        UserRole.BUYER).newState = some ns ∧
      applyAction ⟨"e1", "b", "s", 5, "d", EscrowState.PROPOSED, 0, 0⟩
        EscrowAction.FUND "b" UserRole.BUYER none 3 "ev" 4 =
        { success := true,
          newEscrow := some ⟨"e1", "b", "s", 5, "d", ns, 0, 3⟩,
          event := some (.stateChanged "ev" 4 "e1" EscrowAction.FUND
            EscrowState.PROPOSED ns "b" UserRole.BUYER none),
          error := none } :=
  applyAction_frame ⟨"e1", "b", "s", 5, "d", EscrowState.PROPOSED, 0, 0⟩
    EscrowAction.FUND "b" UserRole.BUYER none 3 "ev" 4 rfl

/-- C10: EscrowStore.create never fails; after it, the entry at escrow.id is
exactly (escrow, [initialEvent]) — any prior entry at that id is replaced —
and every other id is untouched. -/
theorem store_create_overwrites (cache : EscrowCache) (e : Escrow)
    (ev : EscrowEvent) :
    EscrowStore.create cache e ev e.id = some ⟨e, [ev]⟩ ∧
    ∀ k, k ≠ e.id → EscrowStore.create cache e ev k = cache k := by
  constructor
  · simp [EscrowStore.create]
  · intro k hk
    simp [EscrowStore.create, hk]

/-- Witness for create's overwrite: the id already has an entry with a
different snapshot and a longer history, and create replaces it wholesale
while an unrelated id is preserved. -/
theorem store_create_overwrites_witness :
    EscrowStore.create
      (fun k => if k = "e1" then
        some ⟨⟨"e1", "x", "y", 9, "old", EscrowState.FUNDED, 0, 2⟩,
          [EscrowEvent.created "ev0" 0 "e1" "x" "y" 9 "old",
           EscrowEvent.stateChanged "ev1" 2 "e1" EscrowAction.FUND
             EscrowState.PROPOSED EscrowState.FUNDED "x" UserRole.BUYER none]⟩
       else if k = "e2" then
        some ⟨⟨"e2", "x", "y", 1, "z", EscrowState.PROPOSED, 0, 0⟩,
          [EscrowEvent.created "ev9" 0 "e2" "x" "y" 1 "z"]⟩
       else none)
      ⟨"e1", "b", "s", 5, "d", EscrowState.PROPOSED, 4, 4⟩
      (EscrowEvent.created "ev2" 4 "e1" "b" "s" 5 "d")
      "e1" =
      some ⟨⟨"e1", "b", "s", 5, "d", EscrowState.PROPOSED, 4, 4⟩,
        [EscrowEvent.created "ev2" 4 "e1" "b" "s" 5 "d"]⟩ ∧
    EscrowStore.create
      (fun k => if k = "e1" then
        some ⟨⟨"e1", "x", "y", 9, "old", EscrowState.FUNDED, 0, 2⟩,
          [EscrowEvent.created "ev0" 0 "e1" "x" "y" 9 "old",
           EscrowEvent.stateChanged "ev1" 2 "e1" EscrowAction.FUND
             EscrowState.PROPOSED EscrowState.FUNDED "x" UserRole.BUYER none]⟩
       else if k = "e2" then
        some ⟨⟨"e2", "x", "y", 1, "z", EscrowState.PROPOSED, 0, 0⟩,
          [EscrowEvent.created "ev9" 0 "e2" "x" "y" 1 "z"]⟩
       else none)
      ⟨"e1", "b", "s", 5, "d", EscrowState.PROPOSED, 4, 4⟩
      (EscrowEvent.created "ev2" 4 "e1" "b" "s" 5 "d")
      "e2" =
      some ⟨⟨"e2", "x", "y", 1, "z", EscrowState.PROPOSED, 0, 0⟩,
        [EscrowEvent.created "ev9" 0 "e2" "x" "y" 1 "z"]⟩ := by
  refine ⟨(store_create_overwrites _ _ _).1, ?_⟩
  have h2 := (store_create_overwrites
    (fun k => if k = "e1" then
      some ⟨⟨"e1", "x", "y", 9, "old", EscrowState.FUNDED, 0, 2⟩,
        [EscrowEvent.created "ev0" 0 "e1" "x" "y" 9 "old",
         EscrowEvent.stateChanged "ev1" 2 "e1" EscrowAction.FUND
           EscrowState.PROPOSED EscrowState.FUNDED "x" UserRole.BUYER none]⟩
     else if k = "e2" then
      some ⟨⟨"e2", "x", "y", 1, "z", EscrowState.PROPOSED, 0, 0⟩,
        [EscrowEvent.created "ev9" 0 "e2" "x" "y" 1 "z"]⟩
     else none)
    ⟨"e1", "b", "s", 5, "d", EscrowState.PROPOSED, 4, 4⟩
    (EscrowEvent.created "ev2" 4 "e1" "b" "s" 5 "d")).2 "e2" (by decide)
  rw [h2]
  simp

/-- C7: EscrowStore.update on an absent id fails with the not-found error
and leaves the store exactly as it was; on a present id it replaces the
snapshot, appends the event to the end of the stored list (nothing
reordered or removed) and leaves every other id untouched. -/
theorem store_update_contract (cache : EscrowCache) (e : Escrow)
    (ev : EscrowEvent) :
    (cache e.id = none →
      EscrowStore.update cache e ev =
        (cache, some ("Escrow " ++ e.id ++ " not found"))) ∧
    (∀ data, cache e.id = some data →
      (EscrowStore.update cache e ev).2 = none ∧
      (EscrowStore.update cache e ev).1 e.id = some ⟨e, data.events ++ [ev]⟩ ∧
      ∀ k, k ≠ e.id → (EscrowStore.update cache e ev).1 k = cache k) := by
  constructor
  · intro h
    simp [EscrowStore.update, h]
  · intro data h
    refine ⟨by simp [EscrowStore.update, h], by simp [EscrowStore.update, h], ?_⟩
    intro k hk
    simp [EscrowStore.update, h, hk]

/-- Witness for the update contract: a failing update against the empty
store, and a succeeding update against a one-entry store. -/
theorem store_update_contract_witness :
    EscrowStore.update (fun _ => none)
      ⟨"e1", "b", "s", 5, "d", EscrowState.FUNDED, 0, 1⟩
      (EscrowEvent.stateChanged "ev1" 1 "e1" EscrowAction.FUND
        EscrowState.PROPOSED EscrowState.FUNDED "b" UserRole.BUYER none) =
      ((fun _ => none), some ("Escrow " ++ "e1" ++ " not found")) ∧
    (EscrowStore.update
      (fun k => if k = "e1" then
        some ⟨⟨"e1", "b", "s", 5, "d", EscrowState.PROPOSED, 0, 0⟩,
          [EscrowEvent.created "ev0" 0 "e1" "b" "s" 5 "d"]⟩ else none)
      ⟨"e1", "b", "s", 5, "d", EscrowState.FUNDED, 0, 1⟩
      (EscrowEvent.stateChanged "ev1" 1 "e1" EscrowAction.FUND
        EscrowState.PROPOSED EscrowState.FUNDED "b" UserRole.BUYER none)).1 "e1"
      = some ⟨⟨"e1", "b", "s", 5, "d", EscrowState.FUNDED, 0, 1⟩,
          [EscrowEvent.created "ev0" 0 "e1" "b" "s" 5 "d"] ++
            [EscrowEvent.stateChanged "ev1" 1 "e1" EscrowAction.FUND
              EscrowState.PROPOSED EscrowState.FUNDED "b" UserRole.BUYER none]⟩ :=
  ⟨(store_update_contract (fun _ => none)
      ⟨"e1", "b", "s", 5, "d", EscrowState.FUNDED, 0, 1⟩
      (EscrowEvent.stateChanged "ev1" 1 "e1" EscrowAction.FUND
        EscrowState.PROPOSED EscrowState.FUNDED "b" UserRole.BUYER none)).1 rfl,
   ((store_update_contract
      (fun k => if k = "e1" then
        some ⟨⟨"e1", "b", "s", 5, "d", EscrowState.PROPOSED, 0, 0⟩,
          [EscrowEvent.created "ev0" 0 "e1" "b" "s" 5 "d"]⟩ else none)
      ⟨"e1", "b", "s", 5, "d", EscrowState.FUNDED, 0, 1⟩
      (EscrowEvent.stateChanged "ev1" 1 "e1" EscrowAction.FUND
        EscrowState.PROPOSED EscrowState.FUNDED "b" UserRole.BUYER none)).2
      ⟨⟨"e1", "b", "s", 5, "d", EscrowState.PROPOSED, 0, 0⟩,
        [EscrowEvent.created "ev0" 0 "e1" "b" "s" 5 "d"]⟩ rfl).2.1⟩

/-- C6: the ensureLoaded reconciliation merge contains every id present in
either source; an id present in exactly one source keeps that entry, and an
id present in both with distinct updatedAt keeps — whole entry, snapshot and
event list together — exactly the one with the later updatedAt. -/
theorem ensureLoadedMerge_reconciles (a b : EscrowCache) (key : String) :
    ((ensureLoadedMerge a b key).isSome = ((a key).isSome || (b key).isSome)) ∧
    (∀ va, a key = some va → b key = none →
      ensureLoadedMerge a b key = some va) ∧
    (∀ vb, a key = none → b key = some vb →
      ensureLoadedMerge a b key = some vb) ∧
    (∀ va vb, a key = some va → b key = some vb →
      va.escrow.updatedAt ≠ vb.escrow.updatedAt →
      ensureLoadedMerge a b key =
        some (if vb.escrow.updatedAt < va.escrow.updatedAt then va else vb)) := by
  refine ⟨?_, ?_, ?_, ?_⟩
  · cases ha : a key <;> cases hb : b key <;> simp [ensureLoadedMerge, ha, hb]
  · intro va ha hb
    simp [ensureLoadedMerge, ha, hb]
  · intro vb ha hb
    simp [ensureLoadedMerge, ha, hb]
  · intro va vb ha hb hne
    simp only [ensureLoadedMerge, ha, hb]
    by_cases hc : vb.escrow.updatedAt < va.escrow.updatedAt
    · rw [if_pos hc, if_pos (Nat.le_of_lt hc)]
    · rw [if_neg hc, if_neg (by omega)]

/-- Witness for reconciliation: the same id in both sources with a later
updatedAt in the second source; the second source's whole entry wins and an
id present only in the first source is kept. -/
theorem ensureLoadedMerge_reconciles_witness :
    ensureLoadedMerge
      (fun k => if k = "e1" then
        some ⟨⟨"e1", "b", "s", 5, "d", EscrowState.PROPOSED, 0, 0⟩,
          [EscrowEvent.created "ev0" 0 "e1" "b" "s" 5 "d"]⟩ else none)
      (fun k => if k = "e1" then
        some ⟨⟨"e1", "b", "s", 5, "d", EscrowState.FUNDED, 0, 3⟩,
          [EscrowEvent.created "ev0" 0 "e1" "b" "s" 5 "d",
           EscrowEvent.stateChanged "ev1" 3 "e1" EscrowAction.FUND
             EscrowState.PROPOSED EscrowState.FUNDED "b" UserRole.BUYER none]⟩
        else none)
      "e1" =
      some (if (3 : Nat) < 0 then
        ⟨⟨"e1", "b", "s", 5, "d", EscrowState.PROPOSED, 0, 0⟩,
          [EscrowEvent.created "ev0" 0 "e1" "b" "s" 5 "d"]⟩
      else
        ⟨⟨"e1", "b", "s", 5, "d", EscrowState.FUNDED, 0, 3⟩,
          [EscrowEvent.created "ev0" 0 "e1" "b" "s" 5 "d",
           EscrowEvent.stateChanged "ev1" 3 "e1" EscrowAction.FUND
             EscrowState.PROPOSED EscrowState.FUNDED "b" UserRole.BUYER none]⟩) :=
  (ensureLoadedMerge_reconciles
    (fun k => if k = "e1" then
      some ⟨⟨"e1", "b", "s", 5, "d", EscrowState.PROPOSED, 0, 0⟩,
        [EscrowEvent.created "ev0" 0 "e1" "b" "s" 5 "d"]⟩ else none)
    (fun k => if k = "e1" then
      some ⟨⟨"e1", "b", "s", 5, "d", EscrowState.FUNDED, 0, 3⟩,
        [EscrowEvent.created "ev0" 0 "e1" "b" "s" 5 "d",
         EscrowEvent.stateChanged "ev1" 3 "e1" EscrowAction.FUND
           EscrowState.PROPOSED EscrowState.FUNDED "b" UserRole.BUYER none]⟩
      else none)
    "e1").2.2.2
    ⟨⟨"e1", "b", "s", 5, "d", EscrowState.PROPOSED, 0, 0⟩,
      [EscrowEvent.created "ev0" 0 "e1" "b" "s" 5 "d"]⟩
    ⟨⟨"e1", "b", "s", 5, "d", EscrowState.FUNDED, 0, 3⟩,
      [EscrowEvent.created "ev0" 0 "e1" "b" "s" 5 "d",
       EscrowEvent.stateChanged "ev1" 3 "e1" EscrowAction.FUND
         EscrowState.PROPOSED EscrowState.FUNDED "b" UserRole.BUYER none]⟩
    rfl rfl (by decide)

/-- Counterexample to C3 as stated: in createEscrow the snapshot's
createdAt comes from one `new Date()` read and the Created event's
timestamp from a second read inside createEscrowCreatedEvent; when the
clock ticks between the two (here 0 then 1), they differ. -/
theorem create_timestamp_counterexample :
    (createEscrow "e1" "b" "s" 5 "d" 0 "ev1" 1).1.createdAt ≠
      ((createEscrow "e1" "b" "s" 5 "d" 0 "ev1" 1).2).timestamp := by
  decide

/-- C3 amended: escrow.createdAt (and updatedAt) equal the clock value read
for the snapshot; the Created event's timestamp equals the clock value of
the event constructor's own read; the two agree whenever those reads return
the same instant — and, for applyAction, the new snapshot's updatedAt
equals the StateChanged event's timestamp whenever its two reads agree
(both maps are none on rejection). -/
theorem timestamp_clock_reads (id buyerId sellerId : String) (amount : Int)
    (description : String) (t : Nat) (eid : String) (e : Escrow)
    (a : EscrowAction) (p : String) (r : UserRole) (reason : Option String)
    (t2 : Nat) (eid2 : String) :
    (createEscrow id buyerId sellerId amount description t eid t).1.createdAt
      = ((createEscrow id buyerId sellerId amount description t eid t).2).timestamp ∧
    (createEscrow id buyerId sellerId amount description t eid t).1.updatedAt
      = ((createEscrow id buyerId sellerId amount description t eid t).2).timestamp ∧
    ((applyAction e a p r reason t2 eid2 t2).newEscrow.map Escrow.updatedAt)
      = ((applyAction e a p r reason t2 eid2 t2).event.map EscrowEvent.timestamp) := by
  refine ⟨rfl, rfl, ?_⟩
  cases hs : (transitionState e.currentState a r).success <;>
    simp [applyAction, hs, createStateChangedEvent, EscrowEvent.timestamp]

/-- Closed form of reconstructEscrow on a nonempty list whose first Created
event (anywhere in the list) is `ce`. -/
lemma reconstructEscrow_eq_of_find (events : List EscrowEvent)
    (ce : EscrowEvent) (hne : events ≠ [])
    (hf : events.find? (fun ev => ev.type == EventType.ESCROW_CREATED) = some ce) :
    reconstructEscrow events = some
      { id := ce.escrowId, buyerId := ce.buyerId, sellerId := ce.sellerId,
        amount := ce.amount, description := ce.description,
        currentState :=
          (events.filter (fun ev => ev.type == EventType.STATE_CHANGED)).foldl
            (fun _ ev => ev.toState) EscrowState.PROPOSED,
        createdAt := ce.timestamp, updatedAt := lastTimestamp events,
        events := events } := by
  have hlen : ¬ events.length = 0 := by
    simpa [List.length_eq_zero] using hne
  simp [reconstructEscrow, reconstructStateFromEvents, hlen, hf]

/-- Counterexample to C2 as stated: a sequence whose first element is a
StateChanged event but which contains a Created event later is NOT mapped
to null — reconstructEscrow only requires a Created event to exist
somewhere in the sequence. -/
theorem reconstruct_first_element_counterexample :
    (EscrowEvent.stateChanged "ev1" 3 "e1" EscrowAction.FUND
        EscrowState.PROPOSED EscrowState.FUNDED "b" UserRole.BUYER none).type ≠
      EventType.ESCROW_CREATED ∧
    reconstructEscrow
      [EscrowEvent.stateChanged "ev1" 3 "e1" EscrowAction.FUND
        EscrowState.PROPOSED EscrowState.FUNDED "b" UserRole.BUYER none,
       EscrowEvent.created "ev0" 1 "e1" "b" "s" 5 "d"] ≠ none := by
  exact ⟨by decide, by decide⟩

/-- C2 amended: reconstructEscrow returns null exactly when the sequence
contains no Created event (in particular when empty); whenever a Created
event occurs anywhere, it returns a non-null escrow seeded from the first
Created event found — so in particular for every sequence whose first
element is a Created event. -/
theorem reconstructEscrow_none_iff (events : List EscrowEvent) :
    (reconstructEscrow events = none ↔
      ∀ ev ∈ events, EscrowEvent.type ev ≠ EventType.ESCROW_CREATED) ∧
    (∀ ce, events.find? (fun ev => ev.type == EventType.ESCROW_CREATED) = some ce →
      ∃ w, reconstructEscrow events = some w ∧ w.id = ce.escrowId ∧
        w.buyerId = ce.buyerId ∧ w.sellerId = ce.sellerId ∧
        w.amount = ce.amount ∧ w.description = ce.description ∧
        w.createdAt = ce.timestamp) := by
  cases hf : events.find? (fun ev => ev.type == EventType.ESCROW_CREATED) with
  | none =>
      refine ⟨⟨fun _ => ?_, fun _ => ?_⟩, fun ce hce => by simp_all⟩
      · intro ev hev
        have := List.find?_eq_none.mp hf ev hev
        simpa using this
      · by_cases hlen : events.length = 0
        · simp [reconstructEscrow, reconstructStateFromEvents, hlen]
        · simp [reconstructEscrow, reconstructStateFromEvents, hlen, hf]
  | some ce =>
      have hmem : ce ∈ events := List.mem_of_find?_eq_some hf
      have hce : ce.type = EventType.ESCROW_CREATED := by
        have := List.find?_some hf
        simpa using this
      have hne : events ≠ [] := by
        intro h0
        rw [h0] at hmem
        simp at hmem
      have hrec := reconstructEscrow_eq_of_find events ce hne hf
      constructor
      · rw [hrec]
        constructor
        · intro h0
          simp at h0
        · intro hall
          exact absurd hce (hall ce hmem)
      · intro ce2 hce2
        have hcc : ce = ce2 := Option.some.inj hce2
        subst hcc
        exact ⟨_, hrec, rfl, rfl, rfl, rfl, rfl, rfl⟩

/-- lastTimestamp through getLast?. -/
lemma lastTimestamp_eq (l : List EscrowEvent) :
    lastTimestamp l = ((l.getLast?).map EscrowEvent.timestamp).getD 0 := by
  cases h : l.getLast? <;> simp [lastTimestamp, h]

/-- Peeling the head off a last-timestamp-with-default computation. -/
lemma getLast_map_getD (l : List EscrowEvent) :
    ∀ (a : EscrowEvent) (d : Nat),
      (((a :: l).getLast?).map EscrowEvent.timestamp).getD d
        = ((l.getLast?).map EscrowEvent.timestamp).getD a.timestamp := by
  induction l with
  | nil => intro a d; rfl
  | cons b m ih =>
      intro a d
      rw [List.getLast?_cons_cons, ih b d, ih b a.timestamp]

/-- Filtering for STATE_CHANGED keeps a list of StateChanged events whole. -/
lemma filter_stateChanged_of_all (l : List EscrowEvent)
    (h : ∀ ev ∈ l, EscrowEvent.type ev = EventType.STATE_CHANGED) :
    l.filter (fun ev => ev.type == EventType.STATE_CHANGED) = l := by
  induction l with
  | nil => rfl
  | cons a m ih =>
      rw [List.filter_cons_of_pos (by simp [h a (by simp)])]
      rw [ih (fun ev hev => h ev (by simp [hev]))]

/-- What a successful run of applyAction calls guarantees: the final
snapshot keeps the identity fields and createdAt, its currentState is the
fold of the emitted toStates, its updatedAt is the last emitted event's
timestamp (or the start snapshot's updatedAt when no call was made), and
every emitted event is a StateChanged event. -/
lemma runActions_spec (calls : List ActionCall) :
    ∀ (e fin : Escrow) (evs : List EscrowEvent),
      runActions e calls = some (fin, evs) →
      fin.id = e.id ∧ fin.buyerId = e.buyerId ∧ fin.sellerId = e.sellerId ∧
      fin.amount = e.amount ∧ fin.description = e.description ∧
      fin.createdAt = e.createdAt ∧
      (∀ ev ∈ evs, EscrowEvent.type ev = EventType.STATE_CHANGED) ∧
      fin.currentState
        = evs.foldl (fun _ ev => EscrowEvent.toState ev) e.currentState ∧
      fin.updatedAt
        = ((evs.getLast?).map EscrowEvent.timestamp).getD e.updatedAt := by
  induction calls with
  | nil =>
      intro e fin evs h
      simp only [runActions, Option.some.injEq, Prod.mk.injEq] at h
      obtain ⟨h1, h2⟩ := h
      subst h1
      subst h2
      simp
  | cons c rest ih =>
      intro e fin evs h
      cases hs : (transitionState e.currentState c.action c.userRole).success with
      | false =>
          simp [runActions, applyAction, hs] at h
      | true =>
          obtain ⟨ns, hns⟩ := Option.isSome_iff_exists.mp
            (transitionState_success_newState _ _ _ hs)
          simp only [runActions, applyAction, hs, hns, Bool.not_true,
            Bool.false_eq_true, if_false, Option.get!, createStateChangedEvent] at h
          split at h
          · rename_i fin2 evs2 heq
            simp only [Option.some.injEq, Prod.mk.injEq] at h
            obtain ⟨hfin, hevs⟩ := h
            subst hfin
            subst hevs
            obtain ⟨s1, s2, s3, s4, s5, s6, s7, s8, s9⟩ := ih _ fin2 evs2 heq
            refine ⟨s1, s2, s3, s4, s5, s6, ?_, ?_, ?_⟩
            · intro ev hev
              rcases List.mem_cons.mp hev with hev | hev
              · subst hev; rfl
              · exact s7 ev hev
            · rw [List.foldl_cons]
              exact s8
            · rw [getLast_map_getD]
              exact s9
          · simp at h

/-- Counterexample to C1 as stated: createEscrow with clock reads 0 (for
the snapshot) and 1 (for the Created event), followed by the empty — hence
all-successful — sequence of applyAction calls.  The reconstructed
snapshot's createdAt is the event's timestamp 1, not the last snapshot's
createdAt 0. -/
theorem roundtrip_counterexample :
    runActions (createEscrow "e1" "b" "s" 5 "d" 0 "ev1" 1).1 [] =
      some ((createEscrow "e1" "b" "s" 5 "d" 0 "ev1" 1).1, []) ∧
    (reconstructEscrow [(createEscrow "e1" "b" "s" 5 "d" 0 "ev1" 1).2]).map
        EscrowWithHistory.createdAt ≠
      some (createEscrow "e1" "b" "s" 5 "d" 0 "ev1" 1).1.createdAt := by
  exact ⟨rfl, by decide⟩

/-- C1 amended: the round-trip law holds whenever each call's two clock
reads coincide — createEscrow's snapshot read equals its Created event's
read (both `t` here), and in every successful applyAction the snapshot's
read equals its StateChanged event's read (ActionCall.time for both).
Then reconstructEscrow on the Created event followed by the emitted
StateChanged events in acceptance order equals the last snapshot in every
field: id, buyerId, sellerId, amount, description, currentState, createdAt
and updatedAt. -/
theorem create_apply_reconstruct_roundtrip (id buyerId sellerId : String)
    (amount : Int) (description : String) (t : Nat) (eid : String)
    (calls : List ActionCall) (fin : Escrow) (evs : List EscrowEvent)
    (h : runActions (createEscrow id buyerId sellerId amount description t eid t).1
      calls = some (fin, evs)) :
    reconstructEscrow
        ((createEscrow id buyerId sellerId amount description t eid t).2 :: evs) =
      some ⟨fin.id, fin.buyerId, fin.sellerId, fin.amount, fin.description,
        fin.currentState, fin.createdAt, fin.updatedAt,
        (createEscrow id buyerId sellerId amount description t eid t).2 :: evs⟩ := by
  obtain ⟨s1, s2, s3, s4, s5, s6, s7, s8, s9⟩ := runActions_spec calls _ fin evs h
  have hf : ((createEscrow id buyerId sellerId amount description t eid t).2 :: evs).find?
      (fun ev => ev.type == EventType.ESCROW_CREATED)
      = some (createEscrow id buyerId sellerId amount description t eid t).2 :=
    List.find?_cons_of_pos evs rfl
  have hrec := reconstructEscrow_eq_of_find _ _ (by simp) hf
  rw [hrec]
  rw [show ((createEscrow id buyerId sellerId amount description t eid t).2 :: evs).filter
        (fun ev => ev.type == EventType.STATE_CHANGED)
      = evs.filter (fun ev => ev.type == EventType.STATE_CHANGED) from
    List.filter_cons_of_neg Bool.false_ne_true]
  rw [filter_stateChanged_of_all evs s7]
  rw [lastTimestamp_eq, getLast_map_getD]
  rw [s1, s2, s3, s4, s5, s6, s8, s9]
  rfl

/-- Witness for the round trip: create at time 0 then one successful FUND
call at time 1; reconstruction returns exactly the funded snapshot. -/
theorem create_apply_reconstruct_roundtrip_witness :
    reconstructEscrow
        ((createEscrow "e1" "b" "s" 5 "d" 0 "ev0" 0).2 ::
          [EscrowEvent.stateChanged "ev1" 1 "e1" EscrowAction.FUND
            EscrowState.PROPOSED EscrowState.FUNDED "b" UserRole.BUYER none]) =
      some ⟨"e1", "b", "s", 5, "d", EscrowState.FUNDED, 0, 1,
        (createEscrow "e1" "b" "s" 5 "d" 0 "ev0" 0).2 ::
          [EscrowEvent.stateChanged "ev1" 1 "e1" EscrowAction.FUND
            EscrowState.PROPOSED EscrowState.FUNDED "b" UserRole.BUYER none]⟩ :=
  create_apply_reconstruct_roundtrip "e1" "b" "s" 5 "d" 0 "ev0"
    [⟨EscrowAction.FUND, "b", UserRole.BUYER, none, "ev1", 1⟩]
    ⟨"e1", "b", "s", 5, "d", EscrowState.FUNDED, 0, 1⟩
    [EscrowEvent.stateChanged "ev1" 1 "e1" EscrowAction.FUND
      EscrowState.PROPOSED EscrowState.FUNDED "b" UserRole.BUYER none]
    rfl
